import Mathlib

/-!
Verification of the serial command/response protocol engine of the
`microscope` repository, file `src/microscope/controllers/vortran.py`
(Vortran Stradus VersaLase driver).

Byte strings are embedded as `List Nat` (one entry per byte).  Python
exceptions are embedded as values of `PyError`; fallible code returns
`Except PyError _`.  Python floats are embedded as rationals (no claim
in this development depends on rounding behaviour of IEEE arithmetic).
-/

deriving instance DecidableEq for Except

namespace Vortran

/-- Python exception classes raised by the code under verification:
`microscope.DeviceError` (with its message), the builtin `AssertionError`
(raised by a failing `assert` statement) and the builtin `ValueError`
(raised by `int()` / `float()` on malformed input). -/
inductive PyError where
  | deviceError (msg : String)
  | assertionError
  | valueError
deriving DecidableEq

/-- The Python class of an exception, as used by `except` clauses:
`except microscope.DeviceError` catches exactly the errors whose
class is "DeviceError". -/
def PyError.kindName : PyError → String
  | .deviceError _ => "DeviceError"
  | .assertionError => "AssertionError"
  | .valueError => "ValueError"

/-- The two-byte line terminator b"\x0d\x0a" (CR LF). -/
def crlf : List Nat := [13, 10]

/-- Decode step of `_VersaLaseConnection._command` (vortran.py lines 78-96):
given the bytes of the issued `command` and the raw `answer` read back from
the serial line, produce the reply payload.  Mirrors the Python source:
an empty or bare-CRLF answer raises `DeviceError`; otherwise the trailing
bytes select the b"\x0d\x0d\x0a" shape before the b"\x0d\x0a" shape
(Python slices `answer[-3:]` / `answer[-2:]`); the selected branch strips
`len(command)+1` bytes from the front and the terminator from the back
(`answer[len(command)+1:-3]` resp. `[:-2]`), falling back to
`answer[:len(command)]` when that slice is empty; if neither shape matches,
the `assert answer[-2:] == CRLF` statement raises `AssertionError`. -/
def decodeAnswer (command answer : List Nat) : Except PyError (List Nat) :=
  if answer = crlf ∨ answer = [] then
    .error (.deviceError "Failed to set command")
  else
    if answer.drop (answer.length - 3) = [13, 13, 10] then
      if (answer.take (answer.length - 3)).drop (command.length + 1) = [] then
        .ok (answer.take command.length)
      else
        .ok ((answer.take (answer.length - 3)).drop (command.length + 1))
    else
      if answer.drop (answer.length - 2) = [13, 10] then
        if (answer.take (answer.length - 2)).drop (command.length + 1) = [] then
          .ok (answer.take command.length)
        else
          .ok ((answer.take (answer.length - 2)).drop (command.length + 1))
      else
        .error .assertionError

/-- Embedding of `_parse_bool` (vortran.py lines 37-39): `assert answer==b"0" or
answer==b"1"` then `return answer==b"1"`. -/
def parse_bool (answer : List Nat) : Except PyError Bool :=
  if answer = [48] ∨ answer = [49] then .ok (answer == [49])
  else .error .assertionError

/-! ### Python numeric literal parsing

The accessors apply the Python builtins `int()` and `float()` to the raw
payload bytes.  These builtins are not part of the repository; they are
embedded below for ASCII byte strings: optional surrounding whitespace,
optional sign, then underscore-grouped digits (for `int`) or a
decimal/exponent form or one of the words inf/infinity/nan (for
`float`).  Digit-group underscores follow PEP 515, as the builtins
accept them: an underscore may appear only between two digits of a run
— never leading, trailing, doubled, or adjacent to a sign, decimal
point or exponent marker. -/

def isDigit (c : Nat) : Bool := 48 ≤ c && c ≤ 57

/-- Byte that may appear inside an underscore-grouped digit run: an
ASCII digit or the underscore separator. -/
def isDigitU (c : Nat) : Bool := isDigit c || c = 95

/-- Continuation of an underscore-grouped digit run: each underscore
must be followed by a digit, and every other byte must be a digit. -/
def digitRunTail : List Nat → Bool
  | [] => true
  | 95 :: c :: rest => isDigit c && digitRunTail rest
  | c :: rest => isDigit c && digitRunTail rest

/-- Nonempty underscore-grouped digit run per PEP 515: starts with a
digit, underscores only between digits (so b"4_8" qualifies while
b"_48", b"48_" and b"4__8" do not). -/
def isDigitRun : List Nat → Bool
  | [] => false
  | c :: rest => isDigit c && digitRunTail rest

def isSpaceByte (c : Nat) : Bool :=
  c = 32 || c = 9 || c = 10 || c = 13 || c = 11 || c = 12

/-- Strip ASCII whitespace from both ends, as `int()`/`float()` do. -/
def pyStrip (bs : List Nat) : List Nat :=
  ((bs.dropWhile isSpaceByte).reverse.dropWhile isSpaceByte).reverse

def toLowerByte (c : Nat) : Nat := if 65 ≤ c && c ≤ 90 then c + 32 else c

/-- Value of a digit run, ignoring underscore separators (so b"4_8"
evaluates to 48, as `int(b"4_8")` does). -/
def digitsVal (bs : List Nat) : Nat :=
  bs.foldl (fun a c => if c = 95 then a else a * 10 + (c - 48)) 0

/-- Shape accepted by Python `int()` after stripping: optional sign then
a nonempty underscore-grouped run of ASCII digits. -/
def isIntLiteral (bs : List Nat) : Bool :=
  match pyStrip bs with
  | 43 :: rest => isDigitRun rest
  | 45 :: rest => isDigitRun rest
  | t => isDigitRun t

/-- Python `int()` on a byte string: the parsed integer, or `ValueError`. -/
def pyInt (bs : List Nat) : Except PyError Int :=
  if isIntLiteral bs then
    match pyStrip bs with
    | 45 :: rest => .ok (-(digitsVal rest : Int))
    | 43 :: rest => .ok (digitsVal rest : Int)
    | t => .ok (digitsVal t : Int)
  else .error .valueError

/-- Exponent suffix of a float literal: empty, or `e`/`E` followed by an
optionally signed nonempty underscore-grouped digit run. -/
def expShape : List Nat → Bool
  | [] => true
  | c :: rest =>
    (c = 101 || c = 69) &&
      (match rest with
       | 43 :: ds => isDigitRun ds
       | 45 :: ds => isDigitRun ds
       | ds => isDigitRun ds)

/-- Unsigned mantissa-plus-exponent shape of a Python float literal:
`digits`, `digits.digits`, `digits.`, `.digits` (each digit part an
underscore-grouped run), with an optional exponent suffix. -/
def floatBody (bs : List Nat) : Bool :=
  let ip := bs.takeWhile isDigitU
  let r1 := bs.dropWhile isDigitU
  match r1 with
  | [] => isDigitRun ip
  | 46 :: r2 =>
    let fp := r2.takeWhile isDigitU
    let r3 := r2.dropWhile isDigitU
    ((ip = [] && isDigitRun fp) || (isDigitRun ip && fp = []) ||
        (isDigitRun ip && isDigitRun fp)) &&
      expShape r3
  | _ => isDigitRun ip && expShape r1

def stripSignByte : List Nat → List Nat
  | 43 :: rest => rest
  | 45 :: rest => rest
  | bs => bs

/-- Shape accepted by Python `float()` after stripping: an optionally
signed decimal/exponent form or one of the words inf, infinity, nan
(case-insensitive). -/
def isFloatLiteral (bs : List Nat) : Bool :=
  let t := stripSignByte (pyStrip bs)
  floatBody t ||
    t.map toLowerByte = [105, 110, 102] ||
    t.map toLowerByte = [105, 110, 102, 105, 110, 105, 116, 121] ||
    t.map toLowerByte = [110, 97, 110]

def expVal : List Nat → Int
  | [] => 0
  | _ :: rest =>
    match rest with
    | 45 :: ds => -(digitsVal ds : Int)
    | 43 :: ds => (digitsVal ds : Int)
    | ds => (digitsVal ds : Int)

/-- Value of an unsigned decimal/exponent float literal, as a rational
(underscore separators carry no value: the fractional scale counts its
digits only). -/
def floatValCore (t : List Nat) : ℚ :=
  let ip := t.takeWhile isDigitU
  let r1 := t.dropWhile isDigitU
  match r1 with
  | 46 :: r2 =>
    let fp := r2.takeWhile isDigitU
    let r3 := r2.dropWhile isDigitU
    ((digitsVal ip : ℚ) + (digitsVal fp : ℚ) / (10 : ℚ) ^ (fp.filter isDigit).length) *
      (10 : ℚ) ^ expVal r3
  | _ => (digitsVal ip : ℚ) * (10 : ℚ) ^ expVal r1

/-- Python `float()` on a byte string, with floats embedded as rationals.
The IEEE specials inf/infinity/nan are accepted (as Python does) but have
no rational value; they are mapped through `floatValCore` whose result on
them is irrelevant to every claim (no claim evaluates a special). -/
def pyFloat (bs : List Nat) : Except PyError ℚ :=
  if isFloatLiteral bs then
    match pyStrip bs with
    | 45 :: rest => .ok (-(floatValCore rest))
    | 43 :: rest => .ok (floatValCore rest)
    | t => .ok (floatValCore t)
  else .error .valueError

/-- Strip the trailing `k` bytes of a byte string. -/
def stripTrail (xs : List Nat) (k : Nat) : List Nat :=
  xs.take (xs.length - k)

/-- Reference decode following the words of spec section 4.2, steps 6-8
(together with the tie-break rule of section 4.2): reject an empty or
bare-CRLF answer; otherwise recognize the b"\x0d\x0d\x0a" trailing shape
before the b"\x0d\x0a" one, strip the echoed-command-plus-separator
prefix (`len(command)+1` bytes) from the front and the terminator (three
resp. two bytes) from the back, and fall back to the first `len(command)`
bytes of the answer when the stripped body is empty.  The spec names the
rejection failure `ProtocolError`; failure is represented here by a bare
`Except.error ()` since the spec-level error class carries no payload
relevant to the comparison. -/
def specDecode (command answer : List Nat) : Except Unit (List Nat) :=
  if answer = [] ∨ answer = crlf then .error ()
  else if [13, 13, 10] <:+ answer then
    let body := stripTrail (answer.drop (command.length + 1)) 3
    if body = [] then .ok (answer.take command.length) else .ok body
  else if [13, 10] <:+ answer then
    let body := stripTrail (answer.drop (command.length + 1)) 2
    if body = [] then .ok (answer.take command.length) else .ok body
  else .error ()

/-- Typed integer accessor `_VersaLaseLaserConnection.get_wavelength`
(vortran.py lines 202-203): `int(self._laser_query(b"LW"))`, expressed
over the issued command bytes and the raw answer read back. -/
def laser_query_int (command answer : List Nat) : Except PyError Int :=
  (decodeAnswer command answer).bind pyInt

/-- Typed float accessor `_VersaLaseLaserConnection.get_power`
(vortran.py lines 196-197): `float(self._laser_query(b"LP"))`, expressed
over the issued command bytes and the raw answer read back. -/
def laser_query_float (command answer : List Nat) : Except PyError ℚ :=
  (decodeAnswer command answer).bind pyFloat

/-! ### Helper lemmas about the codec -/

theorem mapErr_ok {ε ε' α : Type} (f : ε → ε') (x : α) :
    Except.mapError f (.ok x) = (.ok x : Except ε' α) := rfl

theorem mapErr_err {ε ε' α : Type} (f : ε → ε') (e : ε) :
    Except.mapError f (.error e) = (.error (f e) : Except ε' α) := rfl

theorem slice_take_drop (a : List Nat) (k m : Nat) :
    (a.take (a.length - m)).drop k = stripTrail (a.drop k) m := by
  rw [List.drop_take, stripTrail, List.length_drop, Nat.sub_right_comm]

/-- Decoding an echo-prefixed reply framed with the three-byte terminator
recovers the payload, for every nonempty payload. -/
theorem decode_framed3 (c P : List Nat) (s : Nat) (hP : P ≠ []) :
    decodeAnswer c (c ++ [s] ++ P ++ [13, 13, 10]) = .ok P := by
  have hPlen : 1 ≤ P.length := List.length_pos.mpr hP
  have hlen : (c ++ [s] ++ P ++ [13, 13, 10]).length = (c ++ [s] ++ P).length + 3 := by
    simp
    omega
  have h1 : ¬(c ++ [s] ++ P ++ [13, 13, 10] = crlf ∨ c ++ [s] ++ P ++ [13, 13, 10] = []) := by
    rintro (h | h) <;> (have hl := congrArg List.length h; simp [crlf] at hl) <;> omega
  have hdrop : (c ++ [s] ++ P ++ [13, 13, 10]).drop
      ((c ++ [s] ++ P ++ [13, 13, 10]).length - 3) = [13, 13, 10] := by
    rw [hlen, Nat.add_sub_cancel]
    exact List.drop_left _ _
  have htake : (c ++ [s] ++ P ++ [13, 13, 10]).take
      ((c ++ [s] ++ P ++ [13, 13, 10]).length - 3) = c ++ [s] ++ P := by
    rw [hlen, Nat.add_sub_cancel]
    exact List.take_left _ _
  have hcs : (c ++ [s]).length = c.length + 1 := by simp
  have hslice : (c ++ [s] ++ P).drop (c.length + 1) = P := by
    rw [← hcs]
    exact List.drop_left _ _
  simp only [decodeAnswer, if_neg h1, if_pos hdrop, htake, hslice, if_neg hP]

/-- Decoding an echo-prefixed reply framed with the two-byte terminator
recovers the payload, provided the payload is nonempty and its final byte
is not CR (a CR-final payload would be mistaken for the three-byte
terminator shape). -/
theorem decode_framed2 (c P : List Nat) (s : Nat) (hP : P ≠ [])
    (hlast : P.getLast? ≠ some 13) :
    decodeAnswer c (c ++ [s] ++ P ++ [13, 10]) = .ok P := by
  rcases List.eq_nil_or_concat P with rfl | ⟨Q, p, rfl⟩
  · exact absurd rfl hP
  · simp only [List.concat_eq_append] at hP hlast ⊢
    have hp : p ≠ 13 := by
      intro hcon
      exact hlast (by simp [hcon])
    have e1 : c ++ [s] ++ (Q ++ [p]) ++ [13, 10] = (c ++ [s] ++ Q) ++ [p, 13, 10] := by
      simp
    have e2 : (c ++ [s] ++ (Q ++ [p])) ++ [13, 10] = (c ++ [s] ++ Q) ++ [p, 13, 10] := by
      simp
    rw [e1]
    have hlen : ((c ++ [s] ++ Q) ++ [p, 13, 10]).length = (c ++ [s] ++ Q).length + 3 := by
      simp
      omega
    have h1 : ¬((c ++ [s] ++ Q) ++ [p, 13, 10] = crlf ∨ (c ++ [s] ++ Q) ++ [p, 13, 10] = []) := by
      rintro (h | h) <;> (have hl := congrArg List.length h; simp [crlf] at hl) <;> omega
    have hd3 : ((c ++ [s] ++ Q) ++ [p, 13, 10]).drop
        (((c ++ [s] ++ Q) ++ [p, 13, 10]).length - 3) = [p, 13, 10] := by
      rw [hlen, Nat.add_sub_cancel]
      exact List.drop_left _ _
    have hne : ¬(((c ++ [s] ++ Q) ++ [p, 13, 10]).drop
        (((c ++ [s] ++ Q) ++ [p, 13, 10]).length - 3) = [13, 13, 10]) := by
      rw [hd3]
      intro hcon
      injection hcon with hh _
      exact hp hh
    have hlen2 : ((c ++ [s] ++ Q) ++ [p, 13, 10]).length - 2
        = (c ++ [s] ++ (Q ++ [p])).length := by
      rw [hlen]
      simp
      omega
    have hd2 : ((c ++ [s] ++ Q) ++ [p, 13, 10]).drop
        (((c ++ [s] ++ Q) ++ [p, 13, 10]).length - 2) = [13, 10] := by
      rw [hlen2, ← e2]
      exact List.drop_left _ _
    have ht2 : ((c ++ [s] ++ Q) ++ [p, 13, 10]).take
        (((c ++ [s] ++ Q) ++ [p, 13, 10]).length - 2) = c ++ [s] ++ (Q ++ [p]) := by
      rw [hlen2, ← e2]
      exact List.take_left _ _
    have hcs : (c ++ [s]).length = c.length + 1 := by simp
    have hslice : (c ++ [s] ++ (Q ++ [p])).drop (c.length + 1) = Q ++ [p] := by
      rw [← hcs]
      exact List.drop_left _ _
    have hQp : Q ++ [p] ≠ [] := by simp
    simp only [decodeAnswer, if_neg h1, if_neg hne, if_pos hd2, ht2, hslice, if_neg hQp]

theorem suffix3_iff (a : List Nat) :
    ([13, 13, 10] <:+ a) ↔ a.drop (a.length - 3) = [13, 13, 10] := by
  rw [List.suffix_iff_eq_drop]
  simp only [List.length_cons, List.length_nil]
  exact eq_comm

theorem suffix2_iff (a : List Nat) :
    ([13, 10] <:+ a) ↔ a.drop (a.length - 2) = [13, 10] := by
  rw [List.suffix_iff_eq_drop]
  simp only [List.length_cons, List.length_nil]
  exact eq_comm

/-- C1: the codec's decode satisfies the reference decode of spec section
4.2 steps 6-8.  For every command and answer of a shape the spec covers
(empty, bare CRLF, or ending in one of the two recognized terminator
shapes): the decode result, with the error payload erased, equals the
spec's reference decode — in particular an empty or bare-CRLF answer
fails (the code raises `DeviceError`, the code's realization of the
spec's `ProtocolError`) and returns no payload, and the three-byte shape
is tested before the two-byte shape, purely by trailing-byte
inspection. -/
theorem C1_decode_refines_spec (c a : List Nat)
    (h : a = [] ∨ a = crlf ∨ [13, 13, 10] <:+ a ∨ [13, 10] <:+ a) :
    Except.mapError (fun _ => ()) (decodeAnswer c a) = specDecode c a ∧
    ((a = [] ∨ a = crlf) →
      decodeAnswer c a = .error (.deviceError "Failed to set command")) := by
  constructor
  · by_cases h0 : a = crlf ∨ a = []
    · have h0' : a = [] ∨ a = crlf := h0.symm
      simp only [decodeAnswer, specDecode, if_pos h0, if_pos h0', mapErr_err]
    · have h0' : ¬(a = [] ∨ a = crlf) := fun hc => h0 hc.symm
      simp only [decodeAnswer, specDecode, if_neg h0, if_neg h0']
      by_cases h3 : a.drop (a.length - 3) = [13, 13, 10]
      · have h3' : [13, 13, 10] <:+ a := (suffix3_iff a).mpr h3
        simp only [if_pos h3, if_pos h3', slice_take_drop]
        by_cases hb : stripTrail (a.drop (c.length + 1)) 3 = []
        · simp only [if_pos hb, mapErr_ok]
        · simp only [if_neg hb, mapErr_ok]
      · have h3' : ¬([13, 13, 10] <:+ a) := fun hc => h3 ((suffix3_iff a).mp hc)
        simp only [if_neg h3, if_neg h3']
        by_cases h2 : a.drop (a.length - 2) = [13, 10]
        · have h2' : [13, 10] <:+ a := (suffix2_iff a).mpr h2
          simp only [if_pos h2, if_pos h2', slice_take_drop]
          by_cases hb : stripTrail (a.drop (c.length + 1)) 2 = []
          · simp only [if_pos hb, mapErr_ok]
          · simp only [if_neg hb, mapErr_ok]
        · have h2' : ¬([13, 10] <:+ a) := fun hc => h2 ((suffix2_iff a).mp hc)
          simp only [if_neg h2, if_neg h2', mapErr_err]
  · intro h0
    simp only [decodeAnswer, if_pos h0.symm]

/-- C1 witness: the refinement instantiated at the concrete command b"?A"
and answer b"?A=1\x0d\x0d\x0a". -/
theorem C1_decode_refines_spec_witness :
    Except.mapError (fun _ => ()) (decodeAnswer [63, 65] [63, 65, 61, 49, 13, 13, 10])
        = specDecode [63, 65] [63, 65, 61, 49, 13, 13, 10] ∧
    (([63, 65, 61, 49, 13, 13, 10] : List Nat) = []
        ∨ ([63, 65, 61, 49, 13, 13, 10] : List Nat) = crlf →
      decodeAnswer [63, 65] [63, 65, 61, 49, 13, 13, 10]
        = .error (.deviceError "Failed to set command")) :=
  C1_decode_refines_spec [63, 65] [63, 65, 61, 49, 13, 13, 10] (by decide)

/-- C3 counterexample: the round-trip fails without a command echo prefix.
With command b"?A" and payload b"1", the encoded test reply b"1\x0d\x0a"
(plain CRLF terminator, no echo) does not decode back to b"1": the codec
unconditionally strips `len(command)+1` front bytes, and here falls back
to the first `len(command)` bytes, returning b"1\x0d". -/
theorem C3_roundtrip_cex :
    decodeAnswer [63, 65] ([49] ++ [13, 10]) ≠ .ok [49] := by decide

/-- C3 (amended): the framing round-trip holds for every command, every
separator byte and every nonempty payload `P` when the encoded reply
carries the command echo prefix: with the three-byte terminator
unconditionally, and with the plain CRLF terminator provided the final
byte of `P` is not CR.  (Without the echo prefix, with an empty payload,
or with a CR-final payload under the CRLF terminator, the round-trip can
fail.) -/
theorem C3_roundtrip_amended (c P : List Nat) (s : Nat) (hP : P ≠ []) :
    decodeAnswer c (c ++ [s] ++ P ++ [13, 13, 10]) = .ok P ∧
    (P.getLast? ≠ some 13 → decodeAnswer c (c ++ [s] ++ P ++ [13, 10]) = .ok P) :=
  ⟨decode_framed3 c P s hP, fun hl => decode_framed2 c P s hP hl⟩

/-- C3 witness: the amended round-trip at command b"?A", separator b"=",
payload b"48", for both terminator shapes. -/
theorem C3_roundtrip_amended_witness :
    decodeAnswer [63, 65] ([63, 65] ++ [61] ++ [52, 56] ++ [13, 13, 10]) = .ok [52, 56] ∧
    decodeAnswer [63, 65] ([63, 65] ++ [61] ++ [52, 56] ++ [13, 10]) = .ok [52, 56] :=
  ⟨(C3_roundtrip_amended [63, 65] [52, 56] 61 (by decide)).1,
   (C3_roundtrip_amended [63, 65] [52, 56] 61 (by decide)).2 (by decide)⟩

/-- C8: `_parse_bool` returns true exactly on b"1", false exactly on
b"0", and fails fast with `AssertionError` on every other reply, never
interpreting it as a boolean. -/
theorem C8_parse_bool_boundary (bs : List Nat) :
    (parse_bool bs = .ok true ↔ bs = [49]) ∧
    (parse_bool bs = .ok false ↔ bs = [48]) ∧
    (bs ≠ [48] → bs ≠ [49] → parse_bool bs = .error .assertionError) := by
  by_cases h0 : bs = [48]
  · subst h0
    exact ⟨by decide, by decide, fun hcon _ => absurd rfl hcon⟩
  · by_cases h1 : bs = [49]
    · subst h1
      exact ⟨by decide, by decide, fun _ hcon => absurd rfl hcon⟩
    · have hno : ¬(bs = [48] ∨ bs = [49]) := by tauto
      have hpb : parse_bool bs = .error .assertionError := if_neg hno
      rw [hpb]
      exact ⟨⟨fun hcon => Except.noConfusion hcon, fun hcon => absurd hcon h1⟩,
             ⟨fun hcon => Except.noConfusion hcon, fun hcon => absurd hcon h0⟩,
             fun _ _ => rfl⟩

/-- C8 witness: the boolean parser applied to the reply b"2" fails fast
with `AssertionError`. -/
theorem C8_parse_bool_boundary_witness :
    parse_bool [50] = .error .assertionError :=
  (C8_parse_bool_boundary [50]).2.2 (by decide) (by decide)

/-- C9: for every echoed, three-byte-terminated reply, each numeric
accessor fails immediately with `ValueError` (the code's realization of
the spec's `ProtocolError` for a numeric field that fails to parse)
whenever the payload does not parse as a number of that accessor's
expected kind: the integer accessor (`get_wavelength`, i.e. `int(...)`
over the decoded payload) on every payload that is not an integer
literal — including float-shaped payloads such as b"1.5" — and the
float accessor (`get_power`, i.e. `float(...)`) on every payload that
is not a float literal; the value is never silently coerced. -/
theorem C9_numeric_parse_failure (c p : List Nat) (s : Nat) (hp : p ≠ []) :
    (isIntLiteral p = false →
      laser_query_int c (c ++ [s] ++ p ++ [13, 13, 10]) = .error .valueError) ∧
    (isFloatLiteral p = false →
      laser_query_float c (c ++ [s] ++ p ++ [13, 13, 10]) = .error .valueError) := by
  have hd := decode_framed3 c p s hp
  constructor
  · intro hint
    show (decodeAnswer c (c ++ [s] ++ p ++ [13, 13, 10])).bind pyInt = _
    rw [hd]
    show pyInt p = _
    simp only [pyInt, hint, if_neg]
    simp
  · intro hflt
    show (decodeAnswer c (c ++ [s] ++ p ++ [13, 13, 10])).bind pyFloat = _
    rw [hd]
    show pyFloat p = _
    simp only [pyFloat, hflt, if_neg]
    simp

/-- C9 witness: at command b"1.?LW" and separator b"=", the integer
accessor fails on the float-shaped payload b"1.5" (not an integer
literal) and the float accessor fails on the payload b"abc" (not a
float literal). -/
theorem C9_numeric_parse_failure_witness :
    laser_query_int [49, 46, 63, 76, 87]
        ([49, 46, 63, 76, 87] ++ [61] ++ [49, 46, 53] ++ [13, 13, 10])
      = .error .valueError ∧
    laser_query_float [49, 46, 63, 76, 87]
        ([49, 46, 63, 76, 87] ++ [61] ++ [97, 98, 99] ++ [13, 13, 10])
      = .error .valueError :=
  ⟨(C9_numeric_parse_failure [49, 46, 63, 76, 87] [49, 46, 53] 61
      (by decide)).1 (by decide),
   (C9_numeric_parse_failure [49, 46, 63, 76, 87] [97, 98, 99] 61
      (by decide)).2 (by decide)⟩

/-! ### Connection probe (`_VersaLaseConnection.__init__`) -/

/-- The bytes b"?SPV", the version query of the handshake. -/
def spvCmd : List Nat := [63, 83, 80, 86]

/-- The bytes b"?SPV=", the expected reply tag of the handshake. -/
def spvTag : List Nat := [63, 83, 80, 86, 61]

/-- The bytes b"ECHO=0", the echo-suppression command. -/
def echoOffCmd : List Nat := [69, 67, 72, 79, 61, 48]

/-- The bytes b"PROMPT=0", the prompt-suppression command. -/
def promptOffCmd : List Nat := [80, 82, 79, 77, 80, 84, 61, 48]

/-- The transport's replies consumed by `_VersaLaseConnection.__init__`:
the two lines read after the version query, and the raw answers read by
the two suppression `_command` calls. -/
structure InitReplies where
  line1 : List Nat
  line2 : List Nat
  echoAnswer : List Nat
  promptAnswer : List Nat

/-- Embedding of `_VersaLaseConnection.__init__` (vortran.py lines 53-68), expressed
over the transport replies: returns the list of command byte strings
written to the serial line (each followed by CR on the wire), and the
error raised, if any.  Mirrors the source: write b"?SPV\x0d"; if the
first line read is not exactly CRLF raise
`DeviceError("not a Vortran Laser device")`; if the second line does not
start with b"?SPV=" raise `DeviceError("not a Vortran VersaLase
device")`; otherwise run the two suppression commands through the codec
(their discarded echo-line reads and the final drain are not writes and
do not appear in the log). -/
def conn_init (r : InitReplies) : List (List Nat) × Option PyError :=
  if r.line1 ≠ crlf then
    ([spvCmd ++ [13]], some (.deviceError "not a Vortran Laser device"))
  else if ¬(spvTag <+: r.line2) then
    ([spvCmd ++ [13]], some (.deviceError "not a Vortran VersaLase device"))
  else
    match decodeAnswer echoOffCmd r.echoAnswer with
    | .error e => ([spvCmd ++ [13], echoOffCmd ++ [13]], some e)
    | .ok _ =>
      match decodeAnswer promptOffCmd r.promptAnswer with
      | .error e =>
        ([spvCmd ++ [13], echoOffCmd ++ [13], promptOffCmd ++ [13]], some e)
      | .ok _ =>
        ([spvCmd ++ [13], echoOffCmd ++ [13], promptOffCmd ++ [13]], none)

/-- C7: if the first line read back is not exactly CRLF, or the second
line does not start with b"?SPV=", connection open fails with the
device-not-recognized / protocol-not-recognized `DeviceError` (the
spec's `HandshakeError`), and on this failing path the suppression
commands b"ECHO=0" and b"PROMPT=0" are never written: the only write is
the version query. -/
theorem C7_handshake_rejection (r : InitReplies)
    (h : r.line1 ≠ crlf ∨ ¬(spvTag <+: r.line2)) :
    (conn_init r).1 = [spvCmd ++ [13]] ∧
    (echoOffCmd ++ [13]) ∉ (conn_init r).1 ∧
    (promptOffCmd ++ [13]) ∉ (conn_init r).1 ∧
    ((conn_init r).2 = some (.deviceError "not a Vortran Laser device") ∨
     (conn_init r).2 = some (.deviceError "not a Vortran VersaLase device")) := by
  by_cases h1 : r.line1 ≠ crlf
  · have e : conn_init r
        = ([spvCmd ++ [13]], some (.deviceError "not a Vortran Laser device")) :=
      if_pos h1
    rw [e]
    exact ⟨rfl, by decide, by decide, Or.inl rfl⟩
  · have h2 : ¬(spvTag <+: r.line2) := h.resolve_left h1
    have e : conn_init r
        = ([spvCmd ++ [13]], some (.deviceError "not a Vortran VersaLase device")) := by
      show (if r.line1 ≠ crlf then _ else _) = _
      rw [if_neg h1, if_pos h2]
    rw [e]
    exact ⟨rfl, by decide, by decide, Or.inr rfl⟩

/-- C7 witness: a transport whose first reply line is b"X". -/
theorem C7_handshake_rejection_witness :
    (conn_init ⟨[88], [], [], []⟩).1 = [spvCmd ++ [13]] ∧
    (echoOffCmd ++ [13]) ∉ (conn_init ⟨[88], [], [], []⟩).1 ∧
    (promptOffCmd ++ [13]) ∉ (conn_init ⟨[88], [], [], []⟩).1 ∧
    ((conn_init ⟨[88], [], [], []⟩).2 = some (.deviceError "not a Vortran Laser device") ∨
     (conn_init ⟨[88], [], [], []⟩).2 = some (.deviceError "not a Vortran VersaLase device")) :=
  C7_handshake_rejection ⟨[88], [], [], []⟩ (Or.inl (by decide))

/-! ### Sub-device multiplexer and discovery
(`_VersaLaseLaserConnection`, `_VersaLaseLaser.__init__`,
`StradusVersaLase.__init__`)

The transport is abstracted as an oracle `replyOf` mapping the issued
command bytes to the raw answer bytes read back for it. -/

/-- The numeric parameter marker b"%d." of `_VersaLaseLaserConnection`
(vortran.py line 131). -/
def param_pfx (i : Nat) : List Nat :=
  (Nat.toDigits 10 i).map Char.toNat ++ [46]

/-- The bytes b"%d.?LW", the wavelength query of slot `i`. -/
def lwQueryCmd (i : Nat) : List Nat := param_pfx i ++ [63, 76, 87]

/-- The bytes b"%d.DELAY=0", the delay set command of slot `i`. -/
def delaySetCmd (i : Nat) : List Nat :=
  param_pfx i ++ [68, 69, 76, 65, 89, 61, 48]

/-- The bytes b"%d.?MAXP", the maximum power query of slot `i`. -/
def maxpQueryCmd (i : Nat) : List Nat := param_pfx i ++ [63, 77, 65, 88, 80]

/-- The bytes b"%d.?LPS", the power setting query of slot `i`. -/
def lpsQueryCmd (i : Nat) : List Nat := param_pfx i ++ [63, 76, 80, 83]

/-- The bytes b"%d.?PUL", the pulse mode query of slot `i`. -/
def pulQueryCmd (i : Nat) : List Nat := param_pfx i ++ [63, 80, 85, 76]

/-- Accessor `get_wavelength` of slot `i` over the transport oracle. -/
def get_wavelength (replyOf : List Nat → List Nat) (i : Nat) : Except PyError Int :=
  laser_query_int (lwQueryCmd i) (replyOf (lwQueryCmd i))

/-- Accessor `set_delay(0)` of slot `i` over the transport oracle (the decoded
reply is discarded by `param_command`). -/
def set_delay0 (replyOf : List Nat → List Nat) (i : Nat) : Except PyError Unit :=
  (decodeAnswer (delaySetCmd i) (replyOf (delaySetCmd i))).map (fun _ => ())

/-- Accessor `get_max_power` of slot `i` over the transport oracle. -/
def get_max_power (replyOf : List Nat → List Nat) (i : Nat) : Except PyError ℚ :=
  laser_query_float (maxpQueryCmd i) (replyOf (maxpQueryCmd i))

/-- Accessor `get_power_setting` of slot `i` over the transport oracle. -/
def get_power_setting (replyOf : List Nat → List Nat) (i : Nat) : Except PyError ℚ :=
  laser_query_float (lpsQueryCmd i) (replyOf (lpsQueryCmd i))

/-- Accessor `get_pulse_mode` of slot `i` over the transport oracle. -/
def get_pulse_mode (replyOf : List Nat → List Nat) (i : Nat) : Except PyError Bool :=
  (decodeAnswer (pulQueryCmd i) (replyOf (pulQueryCmd i))).bind parse_bool

/-- Embedding of `_VersaLaseLaserConnection.__init__` (vortran.py lines 129-142): probe
slot `i` by reading the wavelength parameter and then setting the delay
toggle to 0; a `DeviceError` from either is re-raised as the
slot-absent `DeviceError`; any other exception (such as the codec's
`AssertionError` or a parse `ValueError`) propagates unchanged. -/
def laserConn_init (replyOf : List Nat → List Nat) (i : Nat) : Except PyError Unit :=
  match (get_wavelength replyOf i).bind (fun _ => set_delay0 replyOf i) with
  | .ok _ => .ok ()
  | .error (.deviceError _) =>
    .error (.deviceError
      ("failed to get laser wavelength, probably no laser " ++ toString i))
  | .error e => .error e

/-- The body of `_VersaLaseLaser.__init__` (vortran.py lines 220-231) as
run inside the discovery try block: the slot probe, then the three
cached-parameter reads (max power, power setting, pulse mode). -/
def versaLaseLaser_ctor (replyOf : List Nat → List Nat) (i : Nat) : Except PyError Unit :=
  (laserConn_init replyOf i).bind fun _ =>
    (get_max_power replyOf i).bind fun _ =>
      (get_power_setting replyOf i).bind fun _ =>
        (get_pulse_mode replyOf i).map fun _ => ()

/-- Whether a probe outcome succeeded. -/
def isOkE : Except PyError Unit → Bool
  | .ok _ => true
  | .error _ => false

/-- Whether a probe outcome is one the discovery loop's
`except microscope.DeviceError` clause handles (success, or an error of
class DeviceError); `AssertionError` and `ValueError` are not caught. -/
def notFatal : Except PyError Unit → Bool
  | .error .assertionError => false
  | .error .valueError => false
  | _ => true

/-- The discovery loop of `StradusVersaLase.__init__` (vortran.py lines
356-365), over a given candidate slot list: returns the list of slot ids
actually attempted, and either the discovered association list (name
b"laser%d" to slot, in attempt order) or the first uncaught exception,
which aborts the iteration. -/
def discoverLoop (probe : Nat → Except PyError Unit) :
    List Nat → List Nat × Except PyError (List (String × Nat))
  | [] => ([], .ok [])
  | i :: rest =>
    match probe i with
    | .ok _ =>
      let r := discoverLoop probe rest
      (i :: r.1, r.2.map (fun found => ("laser" ++ toString i, i) :: found))
    | .error (.deviceError _) =>
      let r := discoverLoop probe rest
      (i :: r.1, r.2)
    | .error e => ([i], .error e)

/-- Discovery as performed by `StradusVersaLase.__init__`: candidate
slots 1 through 8 in ascending order. -/
def stradus_discover (replyOf : List Nat → List Nat) :
    List Nat × Except PyError (List (String × Nat)) :=
  discoverLoop (versaLaseLaser_ctor replyOf) [1, 2, 3, 4, 5, 6, 7, 8]

theorem discoverLoop_no_fatal (probe : Nat → Except PyError Unit) :
    ∀ l : List Nat, (∀ i ∈ l, notFatal (probe i) = true) →
      (discoverLoop probe l).1 = l ∧
      (discoverLoop probe l).2 =
        .ok ((l.filter (fun i => isOkE (probe i))).map
              (fun i => ("laser" ++ toString i, i))) := by
  intro l
  induction l with
  | nil => exact fun _ => ⟨rfl, rfl⟩
  | cons i rest ih =>
    intro h
    have hi := h i (List.mem_cons_self _ _)
    obtain ⟨h1, h2⟩ := ih (fun j hj => h j (List.mem_cons_of_mem _ hj))
    cases hpi : probe i with
    | ok u =>
      simp only [discoverLoop, hpi, List.filter_cons, isOkE, h1, h2,
        Except.map, List.map_cons]
      constructor <;> first | rfl | trivial
    | error e =>
      cases e with
      | deviceError m =>
        simp only [discoverLoop, hpi, List.filter_cons, isOkE, h1, h2]
        constructor <;> first | rfl | trivial
      | assertionError =>
        rw [hpi] at hi
        exact absurd hi (by decide)
      | valueError =>
        rw [hpi] at hi
        exact absurd hi (by decide)

/-- C4: discovery attempts every candidate slot 1 through 8 in ascending
order with no early termination, provided every probe outcome is a
success or a `DeviceError` (the only failure class the loop's except
clause downgrades to slot-absent); the attempted list is exactly
[1..8] and the result maps exactly the answering slots, keyed
"laser<N>", in ascending id order. -/
theorem C4_discovery_completeness (replyOf : List Nat → List Nat)
    (h : ∀ i ∈ [1, 2, 3, 4, 5, 6, 7, 8],
      notFatal (versaLaseLaser_ctor replyOf i) = true) :
    (stradus_discover replyOf).1 = [1, 2, 3, 4, 5, 6, 7, 8] ∧
    (stradus_discover replyOf).2 =
      .ok (([1, 2, 3, 4, 5, 6, 7, 8].filter
              (fun i => isOkE (versaLaseLaser_ctor replyOf i))).map
            (fun i => ("laser" ++ toString i, i))) :=
  discoverLoop_no_fatal _ _ h

/-- A transport oracle on which slots 2, 5 and 7 answer every probe
(with value b"1" for the pulse-mode query and b"48" otherwise, echoed
and CRLF-terminated) and every other slot returns an empty read. -/
def replyOf_w (cmd : List Nat) : List Nat :=
  if cmd.take 2 = [50, 46] ∨ cmd.take 2 = [53, 46] ∨ cmd.take 2 = [55, 46] then
    cmd ++ [61] ++
      (if cmd.drop (cmd.length - 4) = [63, 80, 85, 76] then [49] else [52, 56])
      ++ [13, 10]
  else []

/-- C4 witness: discovery over `replyOf_w` attempts all eight slots and
returns exactly the answering ones. -/
theorem C4_discovery_completeness_witness :
    (∀ i ∈ [1, 2, 3, 4, 5, 6, 7, 8],
      notFatal (versaLaseLaser_ctor replyOf_w i) = true) ∧
    ((stradus_discover replyOf_w).1 = [1, 2, 3, 4, 5, 6, 7, 8] ∧
     (stradus_discover replyOf_w).2 =
       .ok (([1, 2, 3, 4, 5, 6, 7, 8].filter
               (fun i => isOkE (versaLaseLaser_ctor replyOf_w i))).map
             (fun i => ("laser" ++ toString i, i)))) :=
  ⟨by decide, C4_discovery_completeness replyOf_w (by decide)⟩

/-- A transport oracle whose reply to slot 1's wavelength probe is the
unterminated byte string b"X"; every other command is answered b"1",
echoed and CRLF-terminated. -/
def replyOf_bad (cmd : List Nat) : List Nat :=
  if cmd = lwQueryCmd 1 then [88] else cmd ++ [61] ++ [49] ++ [13, 10]

/-- C10: a non-empty reply that is not bare CRLF and ends with neither
recognized terminator (b"X") makes the codec raise `AssertionError`, not
`DeviceError`; consequently, when slot 1's wavelength probe reads such a
reply during discovery, the except-DeviceError handler does not catch
it, the slot is not skipped as absent, and the error propagates out of
controller construction: only slot 1 is attempted and discovery of the
remaining slots is aborted. -/
theorem C10_assertion_aborts_discovery :
    decodeAnswer (lwQueryCmd 1) [88] = .error .assertionError ∧
    PyError.kindName .assertionError
      ≠ PyError.kindName (.deviceError "Failed to set command") ∧
    (stradus_discover replyOf_bad).1 = [1] ∧
    (stradus_discover replyOf_bad).2 = .error .assertionError := by
  refine ⟨by decide, by decide, by decide, by decide⟩

/-! ### Parameter accessor layer state (`_VersaLaseLaser`)

`_VersaLaseLaser` caches `_max_power`, `_save_power` and
`_track_digital_modulation` at construction.  Its methods are embedded
as functions of the cached state and the device replies they read,
returning the sequence of wire operations they perform. -/

/-- A parameter write sent to the device by `_VersaLaseLaser`. -/
inductive LCmd where
  | setPower (v : ℚ)
  | setEmission (b : Bool)
  | setPulseMode (b : Bool)
deriving DecidableEq

/-- A parameter query sent to the device by `_VersaLaseLaser`. -/
inductive LQuery where
  | qLE
  | qLPS
  | qPUL
deriving DecidableEq

/-- One wire operation of `_VersaLaseLaser`: a write command or a query. -/
inductive LEvt where
  | cmd (c : LCmd)
  | query (q : LQuery)
deriving DecidableEq

/-- The cached state of a `_VersaLaseLaser` instance. -/
structure Laser where
  maxPower : ℚ
  savePower : ℚ
  trackDM : Bool
deriving DecidableEq

/-- Embedding of `_VersaLaseLaser._do_set_power` (vortran.py lines 242-249), given the
emission status the initial query reads back: if emission is on, send
`LP=` with the absolute power; otherwise send nothing further, save the
absolute power locally, and raise `DeviceError` stating the setting was
saved.  Returns the updated cached state, the wire operations performed,
and the error raised, if any. -/
def do_set_power (st : Laser) (devLE : Bool) (power : ℚ) :
    Laser × List LEvt × Option PyError :=
  if devLE = true then
    (st, [.query .qLE, .cmd (.setPower (power * st.maxPower))], none)
  else
    (⟨st.maxPower, power * st.maxPower, st.trackDM⟩,
     [.query .qLE],
     some (.deviceError
       "Failed to set power, laser is not enabled. But power setting has been saved"))

/-- The device replies consumed by `_do_enable`. -/
structure DevReplies where
  lps : ℚ
  pul : Bool

/-- Embedding of `_VersaLaseLaser._do_enable` (vortran.py lines 259-266), given the
device replies its queries read back: send emission-on; query the power
setting; if it differs from the saved power, send `LP=` with the saved
power (the pulse mode is neither queried nor applied); otherwise query
the pulse mode and, only if it differs from the tracked value, send
`PUL=`.  Returns the sequence of wire operations performed. -/
def do_enable (st : Laser) (dev : DevReplies) : List LEvt :=
  [.cmd (.setEmission true), .query .qLPS] ++
    (if dev.lps ≠ st.savePower then [.cmd (.setPower st.savePower)]
     else .query .qPUL ::
       (if dev.pul ≠ st.trackDM then [.cmd (.setPulseMode st.trackDM)] else []))

/-- C5 counterexample: the deferred-write failure of `_do_set_power` is
raised as the plain `microscope.DeviceError` — the very exception class
used for unrecoverable device failures such as the codec's command
rejection — so it is not a distinct `DeferredWriteError`
distinguishable from an unrecoverable failure: at max power 100,
emission off and power fraction 1/2, the raised error's class equals
the class of the codec's command-rejection error. -/
theorem C5_gated_power_cex :
    ((do_set_power ⟨100, 0, false⟩ false (1 / 2)).2.2).map PyError.kindName
      = some (PyError.kindName (.deviceError "Failed to set command")) := rfl

/-- C5 (amended): for every cached state and power fraction, if emission
is off when the power setter is called, no `LP=` command is sent (the
only wire operation is the emission-status query), the desired absolute
power (fraction times cached max power) is remembered locally with the
other cached fields unchanged, and the call fails with a `DeviceError`
whose message states that the power setting has been saved — the same
exception class as unrecoverable device failures, distinguishable only
by its message, not a distinct DeferredWriteError. -/
theorem C5_gated_power_amended (st : Laser) (power : ℚ) :
    (do_set_power st false power).1
      = ⟨st.maxPower, power * st.maxPower, st.trackDM⟩ ∧
    (do_set_power st false power).2.1 = [.query .qLE] ∧
    (do_set_power st false power).2.2 =
      some (.deviceError
        "Failed to set power, laser is not enabled. But power setting has been saved") := by
  refine ⟨?_, ?_, ?_⟩ <;> simp [do_set_power]

/-- C6: `_do_enable` reconciles at most one deferred field per enable
transition, saved power first: after sending emission-on, if the
device's power setting differs from the saved power, exactly one `LP=`
write of the saved power is issued and the saved pulse mode is neither
queried nor applied; only when the power setting matches is the pulse
mode queried and, only if different from the tracked value, applied. -/
theorem C6_enable_reconciliation (st : Laser) (dev : DevReplies) :
    (dev.lps ≠ st.savePower →
      do_enable st dev =
        [.cmd (.setEmission true), .query .qLPS,
         .cmd (.setPower st.savePower)]) ∧
    (dev.lps = st.savePower → dev.pul ≠ st.trackDM →
      do_enable st dev =
        [.cmd (.setEmission true), .query .qLPS, .query .qPUL,
         .cmd (.setPulseMode st.trackDM)]) ∧
    (dev.lps = st.savePower → dev.pul = st.trackDM →
      do_enable st dev =
        [.cmd (.setEmission true), .query .qLPS, .query .qPUL]) := by
  refine ⟨fun h1 => ?_, fun h1 h2 => ?_, fun h1 h2 => ?_⟩
  · simp [do_enable, h1]
  · simp [do_enable, h1, h2]
  · simp [do_enable, h1, h2]

/-- C6 witness: with saved power 50, a device power setting of 0 makes
enable issue only the `LP=` write (pulse mode untouched although it
differs from the tracked value); a matching power setting of 50 makes
enable query and apply the pulse mode instead. -/
theorem C6_enable_reconciliation_witness :
    do_enable ⟨100, 50, false⟩ ⟨0, true⟩ =
      [.cmd (.setEmission true), .query .qLPS, .cmd (.setPower 50)] ∧
    do_enable ⟨100, 50, false⟩ ⟨50, true⟩ =
      [.cmd (.setEmission true), .query .qLPS, .query .qPUL,
       .cmd (.setPulseMode false)] :=
  ⟨(C6_enable_reconciliation ⟨100, 50, false⟩ ⟨0, true⟩).1 (by norm_num),
   (C6_enable_reconciliation ⟨100, 50, false⟩ ⟨50, true⟩).2.1 rfl (by decide)⟩

/-! ### Transaction serialization (`_VersaLaseConnection._command` locking)

`_command` performs its write and its two reads while holding
`self._serial.lock` (vortran.py lines 73-76).  The lock discipline is
embedded as a small-step interleaving semantics: each thread runs one
transaction (acquire; write command plus CR; read echo line; read
reply; release), a step is enabled only as the source program allows
it, and the wire trace records the write/read operations in the order
they happen. -/

/-- One byte-level operation observed on the wire. -/
inductive WireEvt where
  | write (bs : List Nat)
  | read (bs : List Nat)
deriving DecidableEq

/-- One transaction of `_command`: the command written and the two byte
strings read back. -/
structure Tx where
  cmd : List Nat
  echo : List Nat
  reply : List Nat
deriving DecidableEq

/-- The wire operations of one transaction, in program order (vortran.py
lines 74-76): write `command + CR`, read the echo line, read the reply
up to CRLF. -/
def Tx.events (t : Tx) : List WireEvt :=
  [.write (t.cmd ++ [13]), .read t.echo, .read t.reply]

/-- Thread state: not yet started, inside the locked region with the
listed wire operations still to perform, or finished. -/
inductive TSt where
  | idle
  | run (rem : List WireEvt)
  | done
deriving DecidableEq

/-- A configuration: the lock holder (if any) and every thread's state. -/
structure Config (n : Nat) where
  lock : Option (Fin n)
  thr : Fin n → TSt

/-- Labelled small-step relation: thread `i` may acquire the free lock
and enter its transaction, perform its next wire operation while holding
the lock (emitting it to the trace), or release the lock when its
transaction's operations are exhausted. -/
inductive Step {n : Nat} (txs : Fin n → Tx) :
    Config n → List (Fin n × WireEvt) → Config n → Prop where
  | acquire {c : Config n} (i : Fin n)
      (h1 : c.lock = none) (h2 : c.thr i = .idle) :
      Step txs c [] ⟨some i, Function.update c.thr i (.run (txs i).events)⟩
  | emit {c : Config n} (i : Fin n) (e : WireEvt) (es : List WireEvt)
      (h1 : c.lock = some i) (h2 : c.thr i = .run (e :: es)) :
      Step txs c [(i, e)] ⟨some i, Function.update c.thr i (.run es)⟩
  | release {c : Config n} (i : Fin n)
      (h1 : c.lock = some i) (h2 : c.thr i = .run []) :
      Step txs c [] ⟨none, Function.update c.thr i .done⟩

/-- Reflexive-transitive closure of `Step`, accumulating the trace. -/
inductive Exec {n : Nat} (txs : Fin n → Tx) :
    Config n → List (Fin n × WireEvt) → Config n → Prop where
  | refl (c : Config n) : Exec txs c [] c
  | step {c1 c2 c3 : Config n} {t1 t2 : List (Fin n × WireEvt)}
      (h1 : Step txs c1 t1 c2) (h2 : Exec txs c2 t2 c3) :
      Exec txs c1 (t1 ++ t2) c3

/-- The trace block of thread `i`'s whole transaction. -/
def blockOf {n : Nat} (txs : Fin n → Tx) (i : Fin n) :
    List (Fin n × WireEvt) :=
  (txs i).events.map (fun e => (i, e))

/-- Invariant tying a reachable configuration to its trace: `ds` lists
the finished threads in completion order; the trace is their blocks in
that order, followed by the partial block of the current lock holder. -/
def Inv {n : Nat} (txs : Fin n → Tx) (c : Config n)
    (tr : List (Fin n × WireEvt)) : Prop :=
  ∃ ds : List (Fin n), ds.Nodup ∧ (∀ j, c.thr j = .done ↔ j ∈ ds) ∧
    ((c.lock = none ∧ (∀ j, j ∉ ds → c.thr j = .idle) ∧
        tr = ds.flatMap (blockOf txs)) ∨
     (∃ i rem pre, c.lock = some i ∧ i ∉ ds ∧
        (∀ j, j ∉ ds → j ≠ i → c.thr j = .idle) ∧
        c.thr i = .run rem ∧ pre ++ rem = (txs i).events ∧
        tr = ds.flatMap (blockOf txs) ++ pre.map (fun e => (i, e))))

theorem Inv_step {n : Nat} (txs : Fin n → Tx) {c c' : Config n}
    {t tr : List (Fin n × WireEvt)}
    (hs : Step txs c t c') (hinv : Inv txs c tr) : Inv txs c' (tr ++ t) := by
  obtain ⟨ds, hnd, hdone, hrest⟩ := hinv
  cases hs with
  | acquire i h1 h2 =>
    rcases hrest with ⟨_, hidle, htr⟩ | ⟨i', rem, pre, hl, _⟩
    · have hiND : i ∉ ds := fun hm => by
        have hdi := (hdone i).mpr hm
        rw [h2] at hdi
        exact TSt.noConfusion hdi
      refine ⟨ds, hnd, ?_,
        Or.inr ⟨i, (txs i).events, [], rfl, hiND, ?_, ?_, ?_, ?_⟩⟩
      · intro j
        show Function.update c.thr i (TSt.run (txs i).events) j = TSt.done ↔ j ∈ ds
        by_cases hj : j = i
        · subst hj
          rw [Function.update_same]
          exact ⟨fun hcon => TSt.noConfusion hcon, fun hm => absurd hm hiND⟩
        · rw [Function.update_noteq hj]
          exact hdone j
      · intro j hjds hjne
        show Function.update c.thr i (TSt.run (txs i).events) j = TSt.idle
        rw [Function.update_noteq hjne]
        exact hidle j hjds
      · show Function.update c.thr i (TSt.run (txs i).events) i = TSt.run (txs i).events
        rw [Function.update_same]
      · rfl
      · rw [htr]
        simp
    · rw [h1] at hl
      exact Option.noConfusion hl
  | emit i e es h1 h2 =>
    rcases hrest with ⟨hl, _⟩ | ⟨i', rem, pre, hl, hiND, hidle, hrun, hpre, htr⟩
    · rw [h1] at hl
      exact Option.noConfusion hl
    · have hii : i' = i := by
        rw [h1] at hl
        exact (Option.some.inj hl).symm
      subst hii
      have hrem : rem = e :: es := by
        rw [h2] at hrun
        exact (TSt.run.inj hrun).symm
      subst hrem
      refine ⟨ds, hnd, ?_,
        Or.inr ⟨i', es, pre ++ [e], rfl, hiND, ?_, ?_, ?_, ?_⟩⟩
      · intro j
        show Function.update c.thr i' (TSt.run es) j = TSt.done ↔ j ∈ ds
        by_cases hj : j = i'
        · subst hj
          rw [Function.update_same]
          exact ⟨fun hcon => TSt.noConfusion hcon, fun hm => absurd hm hiND⟩
        · rw [Function.update_noteq hj]
          exact hdone j
      · intro j hjds hjne
        show Function.update c.thr i' (TSt.run es) j = TSt.idle
        rw [Function.update_noteq hjne]
        exact hidle j hjds hjne
      · show Function.update c.thr i' (TSt.run es) i' = TSt.run es
        rw [Function.update_same]
      · rw [List.append_assoc]
        exact hpre
      · rw [htr]
        simp
  | release i h1 h2 =>
    rcases hrest with ⟨hl, _⟩ | ⟨i', rem, pre, hl, hiND, hidle, hrun, hpre, htr⟩
    · rw [h1] at hl
      exact Option.noConfusion hl
    · have hii : i' = i := by
        rw [h1] at hl
        exact (Option.some.inj hl).symm
      subst hii
      have hrem : rem = [] := by
        rw [h2] at hrun
        exact (TSt.run.inj hrun).symm
      subst hrem
      have hpre' : pre = (txs i').events := by
        rw [← hpre, List.append_nil]
      refine ⟨ds ++ [i'], ?_, ?_, Or.inl ⟨rfl, ?_, ?_⟩⟩
      · rw [List.nodup_append]
        exact ⟨hnd, List.nodup_singleton _,
          fun a ha hb => hiND (by rwa [List.mem_singleton.mp hb] at ha)⟩
      · intro j
        show Function.update c.thr i' TSt.done j = TSt.done ↔ j ∈ ds ++ [i']
        by_cases hj : j = i'
        · subst hj
          rw [Function.update_same]
          simp
        · rw [Function.update_noteq hj]
          rw [List.mem_append, List.mem_singleton]
          exact ⟨fun hd => Or.inl ((hdone j).mp hd),
            fun hm => (hdone j).mpr (hm.resolve_right hj)⟩
      · intro j hj
        rw [List.mem_append, List.mem_singleton] at hj
        push_neg at hj
        show Function.update c.thr i' TSt.done j = TSt.idle
        rw [Function.update_noteq hj.2]
        exact hidle j hj.1 hj.2
      · rw [htr, hpre', List.flatMap_append]
        simp [blockOf]

theorem Inv_exec {n : Nat} (txs : Fin n → Tx) {c1 c2 : Config n}
    {tr : List (Fin n × WireEvt)} (h : Exec txs c1 tr c2) :
    ∀ tr0, Inv txs c1 tr0 → Inv txs c2 (tr0 ++ tr) := by
  induction h with
  | refl c =>
    intro tr0 h0
    simpa using h0
  | step h1 h2 ih =>
    intro tr0 h0
    have hmid := Inv_step _ h1 h0
    have hend := ih _ hmid
    rwa [List.append_assoc] at hend

/-- C2: transactions are fully serialized by the transport lock.  For
every thread count, every assignment of one transaction per thread, and
every interleaved execution from the initial configuration that runs all
transactions to completion, the byte-level trace observed on the wire
equals the concatenation of the individual (write command, read echo,
read reply) transaction byte-sequences in some total order (a
permutation of the threads) — bytes of two transactions never
interleave. -/
theorem C2_serialization {n : Nat} (txs : Fin n → Tx)
    (tr : List (Fin n × WireEvt)) (cf : Config n)
    (hexec : Exec txs ⟨none, fun _ => TSt.idle⟩ tr cf)
    (hdone : ∀ j, cf.thr j = TSt.done) :
    ∃ order : List (Fin n), order.Perm (List.finRange n) ∧
      tr = order.flatMap (blockOf txs) := by
  have hinit : Inv txs ⟨none, fun _ => TSt.idle⟩ [] :=
    ⟨[], List.nodup_nil,
     fun j => ⟨fun hcon => TSt.noConfusion hcon,
               fun hm => absurd hm (List.not_mem_nil _)⟩,
     Or.inl ⟨rfl, fun _ _ => rfl, rfl⟩⟩
  have hfin := Inv_exec txs hexec [] hinit
  rw [List.nil_append] at hfin
  obtain ⟨ds, hnd, hdmem, hrest⟩ := hfin
  rcases hrest with ⟨_, _, htr⟩ | ⟨i, rem, pre, _, _, _, hrun, _, _⟩
  · refine ⟨ds, ?_, htr⟩
    rw [List.perm_ext_iff_of_nodup hnd (List.nodup_finRange n)]
    intro a
    exact ⟨fun _ => List.mem_finRange a, fun _ => (hdmem a).mp (hdone a)⟩
  · rw [hdone i] at hrun
    exact TSt.noConfusion hrun

/-- First sample transaction for the serialization witness. -/
def tx0 : Tx := ⟨[63, 65], [13, 10], [63, 65, 61, 49, 13, 10]⟩

/-- Second sample transaction for the serialization witness. -/
def tx1 : Tx := ⟨[63, 66], [13, 10], [63, 66, 61, 48, 13, 10]⟩

/-- Two threads, one transaction each. -/
def txs2 : Fin 2 → Tx := fun i => if i = 0 then tx0 else tx1

/-- A concrete completed two-thread execution of the lock semantics,
with its wire trace. -/
theorem exec2_deriv : ∃ cf : Config 2,
    Exec txs2 ⟨none, fun _ => TSt.idle⟩
      [((0 : Fin 2), WireEvt.write [63, 65, 13]),
       (0, WireEvt.read [13, 10]),
       (0, WireEvt.read [63, 65, 61, 49, 13, 10]),
       (1, WireEvt.write [63, 66, 13]),
       (1, WireEvt.read [13, 10]),
       (1, WireEvt.read [63, 66, 61, 48, 13, 10])] cf ∧
    ∀ j, cf.thr j = TSt.done := by
  refine ⟨?_, ?_, ?_⟩
  rotate_left
  · refine Exec.step (Step.acquire 0 rfl rfl) ?_
    refine Exec.step (Step.emit 0 _ _ rfl rfl) ?_
    refine Exec.step (Step.emit 0 _ _ rfl rfl) ?_
    refine Exec.step (Step.emit 0 _ _ rfl rfl) ?_
    refine Exec.step (Step.release 0 rfl rfl) ?_
    refine Exec.step (Step.acquire 1 rfl rfl) ?_
    refine Exec.step (Step.emit 1 _ _ rfl rfl) ?_
    refine Exec.step (Step.emit 1 _ _ rfl rfl) ?_
    refine Exec.step (Step.emit 1 _ _ rfl rfl) ?_
    refine Exec.step (Step.release 1 rfl rfl) ?_
    exact Exec.refl _
  · intro j
    fin_cases j <;> rfl

/-- C2 witness: the serialization theorem applied to the concrete
two-thread execution of `exec2_deriv`. -/
theorem C2_serialization_witness :
    ∃ order : List (Fin 2), order.Perm (List.finRange 2) ∧
      ([((0 : Fin 2), WireEvt.write [63, 65, 13]),
        (0, WireEvt.read [13, 10]),
        (0, WireEvt.read [63, 65, 61, 49, 13, 10]),
        (1, WireEvt.write [63, 66, 13]),
        (1, WireEvt.read [13, 10]),
        (1, WireEvt.read [63, 66, 61, 48, 13, 10])]
        : List (Fin 2 × WireEvt))
        = order.flatMap (blockOf txs2) := by
  obtain ⟨cf, hexec, hdone⟩ := exec2_deriv
  exact C2_serialization txs2 _ cf hexec hdone

end Vortran
